import Mathlib

/-!
Verification of the mpdisplay repository: a shallow embedding in Lean 4 of
the pure/algorithmic parts of `lib/mpdisplay/_busdisplay.py` (class
`BusDisplay`) and `src/lib/pydevices/__init__.py` (color utilities, `Area`,
`DisplayDriver`, `Events`), together with theorems settling the spec claims.

Python exceptions are modelled explicitly: a function that can raise returns
`Except PyErr _` or pairs its result with an `Option PyErr`.  Machine
integers are modelled as `Int`/`Nat` (Python integers are unbounded, so no
wrap-around modelling is needed); Python floor division `//` is `Int.fdiv`
and Python `%` on a positive modulus is `Int.emod`.
-/

/-- The Python exception classes raised by the code under verification.
The spec names them InvalidArgument / InvalidConfiguration / AlreadyExists
(all raised as `ValueError` in the source), NotSupported
(`NotImplementedError`), plus the built-in `TypeError`, `AttributeError`
and `IndexError`. -/
inductive PyErr
  | valueError
  | typeError
  | attributeError
  | indexError
  | notImplementedError
  deriving Repr, DecidableEq

/-! ## BusDisplay (`lib/mpdisplay/_busdisplay.py`) constants -/

/-- Constant `_RGB = const(0x00)`. -/
def _RGB : Nat := 0x00

/-- Constant `_BGR = const(0x08)`. -/
def _BGR : Nat := 0x08

/-- Constant `_MADCTL_MV = const(0x20)`. -/
def _MADCTL_MV : Nat := 0x20

/-- Constant `_MADCTL_MX = const(0x40)`. -/
def _MADCTL_MX : Nat := 0x40

/-- Constant `_MADCTL_MY = const(0x80)`. -/
def _MADCTL_MY : Nat := 0x80

/-- Table `_DEFAULT_ROTATION_TABLE` (non-mirrored MADCTL values, rotations 0/90/180/270). -/
def _DEFAULT_ROTATION_TABLE : List Nat :=
  [_MADCTL_MX,
   _MADCTL_MV,
   _MADCTL_MY,
   _MADCTL_MY ||| _MADCTL_MX ||| _MADCTL_MV]

/-- Table `_MIRRORED_ROTATION_TABLE` (mirrored MADCTL values, rotations 0/90/180/270). -/
def _MIRRORED_ROTATION_TABLE : List Nat :=
  [0,
   _MADCTL_MV ||| _MADCTL_MX,
   _MADCTL_MX ||| _MADCTL_MY,
   _MADCTL_MV ||| _MADCTL_MY]

namespace BusDisplay

/-- Source `BusDisplay._madctl(bgr, rotation, rotations)` (lines 603-620).

The source returns `rotations[index] | _BGR if bgr else _RGB`.  By Python
operator precedence the conditional expression binds loosest, so this parses
as `(rotations[index] | _BGR) if bgr else _RGB`: when `bgr` is false the
function returns `_RGB` (`0x00`) and the rotation table is never consulted.
That parse is reproduced faithfully here.

`index = (rotation // 90) % len(rotations)`: Python floor division and
nonnegative modulus (the tables used have length 4; an empty table would
raise `ZeroDivisionError` in Python and is not modelled). -/
def _madctl (bgr : Bool) (rotation : Int) (rotations : List Nat) : Nat :=
  let index : Nat := ((rotation.fdiv 90).emod rotations.length).toNat
  if bgr then rotations.getD index 0 ||| _BGR else _RGB

/-- One parsed record of a byte-packed init sequence:
`(command, parameter bytes, delay in ms applied after the command)`. -/
abbrev InitRecord := Nat × List Nat × Nat

/-- Source `BusDisplay._init_bytes(init_sequence)` (lines 630-664), modelled as
a pure parse of the byte list into the sequence of
`(command, params, delay_ms)` records it sends, in order.  `none` models the
run raising `IndexError` (the only raise site: the single-element index
`init_sequence[i + 1 + data_size]`; note Python slices clamp and cannot
raise).  Per the source: `data_size` is the low 7 bits of the size byte, bit
`0x80` of the size byte flags that a delay byte follows the parameters, a
delay byte of 255 means 500 ms, and without the flag a default 10 ms delay
is applied; the loop then advances by `2 + data_size` bytes. -/
def _init_bytes : List Nat → Option (List InitRecord)
  | [] => some []
  | [_] => none
  | command :: sizeByte :: rest =>
    let dataSize := sizeByte &&& 0x7F
    let params := rest.take dataSize
    if sizeByte &&& 0x80 ≠ 0 then
      if _h : dataSize < rest.length then
        let delayByte := rest.getD dataSize 0
        let ms := if delayByte == 255 then 500 else delayByte
        match _init_bytes (rest.drop (dataSize + 1)) with
        | none => none
        | some tl => some ((command, params, ms) :: tl)
      else
        none
    else
      match _init_bytes (rest.drop dataSize) with
      | none => none
      | some tl => some ((command, params, 10) :: tl)
termination_by l => l.length
decreasing_by
  all_goals simp [List.length_drop]; omega

end BusDisplay

/-- Claim C1: the claim states `_madctl(bgr, rotation, rotations)` returns
`rotations[(rotation // 90) mod 4]` ORed with `0x08` when `bgr` and with
`0x00` otherwise; concretely `_madctl(false, 90, table) = 0x20` and
`_madctl(false, 270, table) = 0xE0`.  The code disagrees for `bgr = false`:
the missing parentheses make it return `0x00` for every rotation, while the
table entries are indeed `0x20` and `0xE0`; the `bgr = true` cases match the
claim (`0x28`, `0xE8`). -/
theorem madctl_bgr_precedence_bug :
    BusDisplay._madctl false 90 _DEFAULT_ROTATION_TABLE = 0x00
    ∧ BusDisplay._madctl false 270 _DEFAULT_ROTATION_TABLE = 0x00
    ∧ _DEFAULT_ROTATION_TABLE.getD 1 0 = 0x20
    ∧ _DEFAULT_ROTATION_TABLE.getD 3 0 = 0xE0
    ∧ BusDisplay._madctl true 90 _DEFAULT_ROTATION_TABLE = 0x28
    ∧ BusDisplay._madctl true 270 _DEFAULT_ROTATION_TABLE = 0xE8 := by
  decide

/-- Claim C4 counterexample: on the 6-byte sequence
`[0x11, 0x00, 0x29, 0x80, 0x01, 0xFF]` the parser does not produce the two
records `(0x11, [], 10 ms)` and `(0x29, [], 500 ms)` claimed: the size byte
`0x80` after `0x29` declares zero parameters plus a delay byte, so the delay
byte is `0x01` (1 ms, not 500 ms), and the loop then starts a third record
at the trailing `0xFF` and raises `IndexError` reading its size byte. -/
theorem init_bytes_six_byte_counterexample :
    BusDisplay._init_bytes [0x11, 0x00, 0x29, 0x80, 0x01, 0xFF] = none
    ∧ BusDisplay._init_bytes [0x11, 0x00, 0x29, 0x80, 0x01, 0xFF]
      ≠ some [(0x11, [], 10), (0x29, [], 500)] := by
  have h : BusDisplay._init_bytes [0x11, 0x00, 0x29, 0x80, 0x01, 0xFF] = none := by
    simp [BusDisplay._init_bytes, show (128 : Nat) &&& 127 = 0 from by decide]
  exact ⟨h, by simp [h]⟩

/-- Claim C4 as amended: the byte sequence realising the claimed behaviour is
the 5-byte `[0x11, 0x00, 0x29, 0x80, 0xFF]`: command `0x11` with zero
parameters and the default 10 ms wait, then command `0x29` with zero
parameters and a delay byte `0xFF` mapping to 500 ms, consuming exactly
5 bytes. -/
theorem init_bytes_five_byte_parse :
    BusDisplay._init_bytes [0x11, 0x00, 0x29, 0x80, 0xFF]
      = some [(0x11, [], 10), (0x29, [], 500)] := by
  simp [BusDisplay._init_bytes, show (128 : Nat) &&& 127 = 0 from by decide]

/-! ## Color utilities (`src/lib/pydevices/__init__.py`, lines 48-91) -/

/-- The shape of the first argument of a Python color function: either a
plain integer channel value or a tuple/list of channel values. -/
inductive RGBArg
  | int (n : Nat)
  | seq (l : List Nat)
  deriving Repr, DecidableEq

/-- Source `color888(r, g, b)` (lines 48-61): `(r << 16) | (g << 8) | b`.  The source
performs no `isinstance` check on `r`; passing a tuple/list as `r` raises
`TypeError` at `r << 16`. -/
def color888 (r : RGBArg) (g b : Nat) : Except PyErr Nat :=
  match r with
  | .int r => .ok ((r <<< 16) ||| (g <<< 8) ||| b)
  | .seq _ => .error .typeError

/-- Source `color565(r, g=0, b=0)` (lines 63-78): if `r` is a tuple/list, the first
three elements replace `r, g, b` (fewer than three raises `ValueError` at
the unpack); then `((r & 0xF8) << 8) | ((g & 0xFC) << 3) | (b >> 3)`. -/
def color565 (r : RGBArg) (g b : Nat) : Except PyErr Nat :=
  match r with
  | .int r => .ok (((r &&& 0xF8) <<< 8) ||| ((g &&& 0xFC) <<< 3) ||| (b >>> 3))
  | .seq l =>
    match l.take 3 with
    | [r, g, b] => .ok (((r &&& 0xF8) <<< 8) ||| ((g &&& 0xFC) <<< 3) ||| (b >>> 3))
    | _ => .error .valueError

/-- Source `color565_swapped(r, g=0, b=0)` (lines 80-86): same tuple/list handling as
`color565`, then swaps the two bytes of the result. -/
def color565_swapped (r : RGBArg) (g b : Nat) : Except PyErr Nat :=
  match color565 r g b with
  | .error e => .error e
  | .ok color => .ok (((color &&& 0xFF) <<< 8) ||| ((color &&& 0xFF00) >>> 8))

/-- Source `color332(r, g, b)` (lines 88-91): `(r & 0xE0) | ((g >> 3) & 0x1C) | (b >> 6)`.
No `isinstance` check: a tuple/list as `r` raises `TypeError` at `r & 0xE0`. -/
def color332 (r : RGBArg) (g b : Nat) : Except PyErr Nat :=
  match r with
  | .int r => .ok ((r &&& 0xE0) ||| (((g >>> 3) &&& 0x1C)) ||| (b >>> 6))
  | .seq _ => .error .typeError

/-- Claim C9 counterexample: the claim states every color converter accepts a
tuple/list first argument, but `color888` and `color332` raise `TypeError`
on a sequence argument (no `isinstance` branch in the source), even though
the same channels as scalars succeed. -/
theorem color888_seq_rejected :
    color888 (RGBArg.seq [255, 0, 0]) 0 0 = .error PyErr.typeError
    ∧ color332 (RGBArg.seq [255, 0, 0]) 0 0 = .error PyErr.typeError
    ∧ color888 (RGBArg.int 255) 0 0 = .ok 0xFF0000
    ∧ color332 (RGBArg.int 255) 0 0 = .ok 0xE0 :=
  ⟨rfl, rfl, rfl, rfl⟩

/-- Claim C9 as amended: only the 16-bit 565 converter and its byte-swapped
variant accept a tuple/list of channels as the first argument, and for those
two the sequence call agrees with the three-scalar call (the scalar
arguments supplied alongside a sequence are ignored); the 24-bit and 8-bit
converters accept only scalars and raise `TypeError` on a sequence. -/
theorem color_functions_arg_shapes (r g b x y : Nat) :
    color565 (RGBArg.seq [r, g, b]) x y = color565 (RGBArg.int r) g b
    ∧ color565_swapped (RGBArg.seq [r, g, b]) x y = color565_swapped (RGBArg.int r) g b
    ∧ color888 (RGBArg.seq [r, g, b]) x y = .error PyErr.typeError
    ∧ color332 (RGBArg.seq [r, g, b]) x y = .error PyErr.typeError := by
  refine ⟨?_, ?_, rfl, rfl⟩ <;> simp [color565, color565_swapped]

/-! ## Area (`src/lib/pydevices/__init__.py`, lines 109-348) -/

/-- The `Area` rectangle: fields `x`, `y`, `w`, `h`.  The source accepts int
or float; the claims under verification use integer arithmetic only, so the
fields are modelled as `Int`. -/
structure Area where
  x : Int
  y : Int
  w : Int
  h : Int
  deriving Repr, DecidableEq

/-- Source `Area.offset(d1, d2=None, d3=None, d4=None)` (lines 223-248).  Argument
defaulting exactly as in the source: if `d2` is absent all four become `d1`
(any supplied `d3`/`d4` are overwritten); else if `d3` is absent, `d3 = d1`
and `d4 = d2` (overwriting any supplied `d4`); else if `d4` is absent,
`d4 = d2`.  Result: `Area(x - d1, y - d2, w + d1 + d3, h + d2 + d4)`. -/
def Area.offset (a : Area) (d1 : Int) (d2 d3 d4 : Option Int) : Area :=
  match d2, d3, d4 with
  | none, _, _ => Area.mk (a.x - d1) (a.y - d1) (a.w + d1 + d1) (a.h + d1 + d1)
  | some d2, none, _ => Area.mk (a.x - d1) (a.y - d2) (a.w + d1 + d1) (a.h + d2 + d2)
  | some d2, some d3, none => Area.mk (a.x - d1) (a.y - d2) (a.w + d1 + d3) (a.h + d2 + d2)
  | some d2, some d3, some d4 => Area.mk (a.x - d1) (a.y - d2) (a.w + d1 + d3) (a.h + d2 + d4)

/-- Source `Area.inset(d1, d2=None, d3=None, d4=None)` (lines 250-275): same argument
defaulting as `offset`, with result
`Area(x + d1, y + d2, w - d1 - d3, h - d2 - d4)`. -/
def Area.inset (a : Area) (d1 : Int) (d2 d3 d4 : Option Int) : Area :=
  match d2, d3, d4 with
  | none, _, _ => Area.mk (a.x + d1) (a.y + d1) (a.w - d1 - d1) (a.h - d1 - d1)
  | some d2, none, _ => Area.mk (a.x + d1) (a.y + d2) (a.w - d1 - d1) (a.h - d2 - d2)
  | some d2, some d3, none => Area.mk (a.x + d1) (a.y + d2) (a.w - d1 - d3) (a.h - d2 - d2)
  | some d2, some d3, some d4 => Area.mk (a.x + d1) (a.y + d2) (a.w - d1 - d3) (a.h - d2 - d4)

/-- Claim C10: for every `Area` and every argument arity (the `Option`
arguments encode the one/two/three/four-argument call shapes), `offset`
followed by `inset` with the same arguments restores the original area, and
so does `inset` followed by `offset`: the two operations are exact
inverses. -/
theorem offset_inset_exact_inverses (a : Area) (d1 : Int) (d2 d3 d4 : Option Int) :
    (a.offset d1 d2 d3 d4).inset d1 d2 d3 d4 = a
    ∧ (a.inset d1 d2 d3 d4).offset d1 d2 d3 d4 = a := by
  obtain ⟨x, y, w, h⟩ := a
  rcases d2 with _ | d2 <;> rcases d3 with _ | d3 <;> rcases d4 with _ | d4 <;>
    simp [Area.offset, Area.inset, Area.mk.injEq] <;> omega

/-! ## DisplayDriver (`src/lib/pydevices/__init__.py`, lines 351-801) -/

/-- A value assigned to `DisplayDriver.touch_device`: either an object that
exposes a `rotation` attribute (holding its current value) or one that does
not.  Python `None` is modelled by wrapping in `Option`. -/
inductive TouchVal
  | obj (rot : Int)
  | noRotAttr
  deriving Repr, DecidableEq

/-- The per-instance state of `DisplayDriver` that the verified operations
read and write.  `_width`/`_height` are the physical (pre-rotation)
dimensions (set by concrete subclasses).  `_vssa` is initialised to `False`
in `__init__` (meaning "no vertical scroll"), modelled `none`; `_tfa`,
`_vsa`, `_bfa` do not exist until `vscrdef` assigns them, modelled `none`. -/
structure DisplayDriverState where
  _width : Int
  _height : Int
  _rotation : Int
  _vssa : Option Int
  _tfa : Option Int
  _vsa : Option Int
  _bfa : Option Int
  _touch_device : Option TouchVal
  deriving Repr, DecidableEq

namespace DisplayDriver

/-- The `width` property (lines 372-377): reports `_height` when the rotation
index `(rotation // 90) & 1` is odd, else `_width`. -/
def width (st : DisplayDriverState) : Int :=
  if (st._rotation.fdiv 90).emod 2 = 1 then st._height else st._width

/-- The `height` property (lines 379-384): reports `_width` when the rotation
index is odd, else `_height`. -/
def height (st : DisplayDriverState) : Int :=
  if (st._rotation.fdiv 90).emod 2 = 1 then st._width else st._height

/-- The `rotation` property getter (lines 386-391): returns `_rotation`. -/
def rotation (st : DisplayDriverState) : Int :=
  st._rotation

/-- The `touch_device` property setter (lines 425-437).  The result pairs the
state after the call with the exception it raises, if any.  Source:
`if hasattr(value, "rotation") or value is None: self._touch_device = value`
`else: raise ValueError(...)`, and then unconditionally
`self._touch_device.rotation = self.rotation`.  When `value` is `None` the
store succeeds but the final line raises `AttributeError` (attribute
assignment on `None`); when the value has a `rotation` attribute, that
attribute is overwritten with the display's current rotation. -/
def set_touch_device (st : DisplayDriverState) (value : Option TouchVal) :
    DisplayDriverState × Option PyErr :=
  match value with
  | some (TouchVal.obj _) =>
    ({ st with _touch_device := some (TouchVal.obj (rotation st)) }, none)
  | some TouchVal.noRotAttr => (st, some .valueError)
  | none => ({ st with _touch_device := none }, some .attributeError)

/-- Source `vscrdef(tfa, vsa, bfa)` (lines 675-691): raises `ValueError` (the spec's
InvalidConfiguration) when `tfa + vsa + bfa != self.height` (the rotated
height property), otherwise stores the three fields. -/
def vscrdef (st : DisplayDriverState) (tfa vsa bfa : Int) :
    Except PyErr DisplayDriverState :=
  if tfa + vsa + bfa ≠ height st then
    .error .valueError
  else
    .ok { st with _tfa := some tfa, _vsa := some vsa, _bfa := some bfa }

/-- The `while vssa < 0: vssa += self._height` loop inside `vscsad`
(lines 705-706).  When `_height ≤ 0` and `vssa < 0` the source loop never
terminates; the model exits in that (physically meaningless) case. -/
def wrapWhileNeg (height : Int) (v : Int) : Int :=
  if _h : v < 0 ∧ 0 < height then wrapWhileNeg height (v + height) else v
termination_by (-v).toNat
decreasing_by
  simp_wf
  omega

/-- Source `vscsad(vssa=None)` (lines 693-710).  With an argument: wraps it into
`[0, _height)` (repeated addition for negatives, then `%= _height` when
`>= _height`; note the raw `_height`, not the rotated property), stores it
in `_vssa`, and returns the wrapped value.  With no argument the `if` body
is skipped and the function returns the argument itself — `None` — rather
than the stored `_vssa`.  The result pairs the state after the call with
the Python return value. -/
def vscsad (st : DisplayDriverState) (vssa : Option Int) :
    DisplayDriverState × Option Int :=
  match vssa with
  | none => (st, none)
  | some v =>
    let v1 := wrapWhileNeg st._height v
    let v2 := if v1 ≥ st._height then v1.emod st._height else v1
    ({ st with _vssa := some v2 }, some v2)

end DisplayDriver

/-- A concrete `DisplayDriver` state used by the concrete-input theorems: a
135x240 portrait display at rotation 0 with no scroll configured and no
touch device attached. -/
def ddState0 : DisplayDriverState :=
  { _width := 135, _height := 240, _rotation := 0, _vssa := none,
    _tfa := none, _vsa := none, _bfa := none, _touch_device := none }

/-- Claim C3: the claim states that after `vscsad(v)` stored a scroll start
address, `vscsad()` with no argument returns the stored address.  In the
source the parameterless call skips the storing branch and executes
`return vssa` with `vssa` still `None`: here, after `vscsad(5)` stores `5`
in `_vssa`, the subsequent `vscsad()` returns `none`, not `some 5`. -/
theorem vscsad_get_returns_none :
    ((DisplayDriver.vscsad ddState0 (some 5)).1)._vssa = some 5
    ∧ (DisplayDriver.vscsad (DisplayDriver.vscsad ddState0 (some 5)).1 none).2 = none
    ∧ (DisplayDriver.vscsad (DisplayDriver.vscsad ddState0 (some 5)).1 none).2 ≠ some 5 := by
  have hwrap : DisplayDriver.wrapWhileNeg 240 5 = 5 := by
    rw [DisplayDriver.wrapWhileNeg]
    norm_num
  have h2 : (DisplayDriver.vscsad (DisplayDriver.vscsad ddState0 (some 5)).1 none).2 = none := rfl
  refine ⟨?_, h2, by rw [h2]; simp⟩
  simp [DisplayDriver.vscsad, ddState0, hwrap]

/-- Claim C6: assigning `touch_device` an object exposing a `rotation`
attribute stores it and synchronises its rotation to the display's current
rotation, and assigning an object lacking the attribute raises `ValueError`
(the spec's InvalidArgument) — both as claimed; but assigning `None`, which
the claim says succeeds, raises `AttributeError`: the unconditional
`self._touch_device.rotation = self.rotation` after the guard dereferences
`None`. -/
theorem touch_device_none_attribute_error :
    (DisplayDriver.set_touch_device ddState0 none).2 = some PyErr.attributeError
    ∧ DisplayDriver.set_touch_device ddState0 (some (TouchVal.obj 99))
      = ({ ddState0 with _touch_device := some (TouchVal.obj ddState0._rotation) }, none)
    ∧ (DisplayDriver.set_touch_device ddState0 (some TouchVal.noRotAttr)).2
      = some PyErr.valueError :=
  ⟨rfl, rfl, rfl⟩

/-- Claim C7: `vscrdef(tfa, vsa, bfa)` raises InvalidConfiguration
(`ValueError`) exactly when `tfa + vsa + bfa` differs from the display
height under the current rotation, and otherwise stores the three fields,
after which `tfa + vsa + bfa` equals the height of the resulting state. -/
theorem vscrdef_invariant (st : DisplayDriverState) (tfa vsa bfa : Int) :
    (DisplayDriver.vscrdef st tfa vsa bfa = .error PyErr.valueError
      ↔ tfa + vsa + bfa ≠ DisplayDriver.height st)
    ∧ (tfa + vsa + bfa = DisplayDriver.height st →
        ∃ st2, DisplayDriver.vscrdef st tfa vsa bfa = .ok st2
          ∧ st2._tfa = some tfa ∧ st2._vsa = some vsa ∧ st2._bfa = some bfa
          ∧ tfa + vsa + bfa = DisplayDriver.height st2) := by
  by_cases h : tfa + vsa + bfa = DisplayDriver.height st
  · refine ⟨⟨fun hc => ?_, fun hc => absurd h hc⟩, fun _ => ?_⟩
    · rw [DisplayDriver.vscrdef, if_neg (by simpa using h)] at hc
      exact absurd hc (by simp)
    · refine ⟨{ st with _tfa := some tfa, _vsa := some vsa, _bfa := some bfa },
        ?_, rfl, rfl, rfl, ?_⟩
      · rw [DisplayDriver.vscrdef, if_neg (by simpa using h)]
      · simpa [DisplayDriver.height] using h
  · refine ⟨⟨fun _ => h, fun _ => ?_⟩, fun hc => absurd hc h⟩
    rw [DisplayDriver.vscrdef, if_pos h]

/-- Witness for C7 at concrete inputs: on the 135x240 display at rotation 0
the triple `(40, 160, 40)` sums to the height 240 and is accepted and
stored; the error-iff part is checked at the same state. -/
theorem vscrdef_invariant_witness :
    ((40 : Int) + 160 + 40 = DisplayDriver.height ddState0)
    ∧ ((DisplayDriver.vscrdef ddState0 40 160 40 = .error PyErr.valueError
        ↔ (40 : Int) + 160 + 40 ≠ DisplayDriver.height ddState0)
      ∧ ((40 : Int) + 160 + 40 = DisplayDriver.height ddState0 →
          ∃ st2, DisplayDriver.vscrdef ddState0 40 160 40 = .ok st2
            ∧ st2._tfa = some 40 ∧ st2._vsa = some 160 ∧ st2._bfa = some 40
            ∧ (40 : Int) + 160 + 40 = DisplayDriver.height st2)) :=
  ⟨by decide, vscrdef_invariant ddState0 40 160 40⟩

mutual

/-- Source `DisplayDriver.deinit` (lines 790-795) and `DisplayDriver.__del__`
(lines 367-368) call each other: `deinit` executes `self.__del__()` and
`__del__` executes `self.deinit()`.  The pair is modelled fuel-indexed on
the number of nested calls allowed; `none` means the call has not returned
within that depth. -/
def DisplayDriver.deinit : Nat → Option Unit
  | 0 => none
  | fuel + 1 => DisplayDriver.dunder_del fuel

/-- Source `DisplayDriver.__del__`, fuel-indexed like `deinit`. -/
def DisplayDriver.dunder_del : Nat → Option Unit
  | 0 => none
  | fuel + 1 => DisplayDriver.deinit fuel

end

/-- Claim C2: the claim states `deinit()` terminates and is safe to call
repeatedly.  In the source `deinit` calls `__del__` and `__del__` calls
`deinit`, so a single call never returns at any finite call depth (in
CPython it raises `RecursionError`); no teardown beyond the mutual calls is
performed. -/
theorem deinit_del_mutual_recursion (fuel : Nat) :
    DisplayDriver.deinit fuel = none ∧ DisplayDriver.dunder_del fuel = none := by
  induction fuel with
  | zero => exact ⟨rfl, rfl⟩
  | succ n ih =>
    exact ⟨by rw [DisplayDriver.deinit]; exact ih.2,
           by rw [DisplayDriver.dunder_del]; exact ih.1⟩

/-! ## BusDisplay brightness (`lib/mpdisplay/_busdisplay.py`, lines 404-438) -/

/-- The slice of `BusDisplay` state that the `brightness` setter reads and
writes: the stored `_brightness` value (a Python float, modelled `Rat`),
the optional backlight pin with its polarity and PWM capability (the pin
object is modelled by its last driven PWM duty / binary level), the
optional brightness command, and the log of commands sent over the bus. -/
structure BusBrightnessState where
  _brightness : Rat
  _backlight_pin : Bool
  _backlight_on_high : Bool
  _backlight_is_pwm : Bool
  _backlight_duty_u16 : Int
  _backlight_value : Bool
  _brightness_command : Option Nat
  _sent : List (Nat × List Nat)
  deriving Repr, DecidableEq

/-- The `brightness` setter of `BusDisplay` (lines 417-438).  The body is a
single `if 0 <= float(value) <= 1.0:` with no `else`: an in-range value is
stored in `_brightness` and then drives the backlight (PWM duty scaled to
16 bits, or a binary level thresholded at 0.5, honouring
`backlight_on_high` polarity) or, with no pin but a brightness command,
sends that command with the value scaled to a byte; an out-of-range value
is silently skipped — the setter returns without raising and without
changing any state.  `Rat.floor` models Python `int()` truncation (the
scaled value is nonnegative in every reachable branch). -/
def BusDisplay.brightness_set (st : BusBrightnessState) (value : Rat) :
    Except PyErr BusBrightnessState :=
  if 0 ≤ value ∧ value ≤ 1 then
    let st1 := { st with _brightness := value }
    if st1._backlight_pin then
      let v := if st1._backlight_on_high then value else 1 - value
      if st1._backlight_is_pwm then
        .ok { st1 with _backlight_duty_u16 := Rat.floor (v * 0xFFFF) }
      else
        .ok { st1 with _backlight_value := decide (v > 1 / 2) }
    else
      match st1._brightness_command with
      | some cmd =>
        .ok { st1 with _sent := st1._sent ++ [(cmd, [(Rat.floor (value * 255)).toNat])] }
      | none => .ok st1
  else
    .ok st

/-- A concrete `BusBrightnessState`: a PWM-capable, on-high backlight pin,
brightness currently 1. -/
def busBrightness0 : BusBrightnessState :=
  { _brightness := 1, _backlight_pin := true, _backlight_on_high := true,
    _backlight_is_pwm := true, _backlight_duty_u16 := 0xFFFF,
    _backlight_value := true, _brightness_command := none, _sent := [] }

/-- Claim C5 counterexample: the claim states that assigning a brightness
outside `[0.0, 1.0]` fails with an InvalidArgument error; in the source the
setter's range check has no `else` branch, so assigning `2` (and `-1`)
raises nothing and leaves the state — including the stored brightness —
unchanged. -/
theorem brightness_out_of_range_no_error :
    BusDisplay.brightness_set busBrightness0 2 = .ok busBrightness0
    ∧ BusDisplay.brightness_set busBrightness0 (-1) = .ok busBrightness0
    ∧ (BusDisplay.brightness_set busBrightness0 2 ≠ .error PyErr.valueError) := by
  refine ⟨?_, ?_, ?_⟩ <;> simp [BusDisplay.brightness_set]

/-- Claim C5 as amended: assigning a value inside `[0.0, 1.0]` is accepted
and stored as the new brightness; assigning a value outside the range never
raises — the setter returns normally with the entire state (in particular
the stored brightness) unchanged. -/
theorem brightness_set_spec (st : BusBrightnessState) (value : Rat) :
    ∃ st2, BusDisplay.brightness_set st value = .ok st2
      ∧ st2._brightness = (if 0 ≤ value ∧ value ≤ 1 then value else st._brightness)
      ∧ ((0 ≤ value ∧ value ≤ 1) ∨ st2 = st) := by
  obtain ⟨b, pin, onhigh, pwm, duty, bval, bcmd, sent⟩ := st
  by_cases h : 0 ≤ value ∧ value ≤ 1
  · rw [BusDisplay.brightness_set]
    simp only [if_pos h]
    cases pin <;> cases pwm <;> cases bcmd <;> exact ⟨_, rfl, rfl, Or.inl h⟩
  · rw [BusDisplay.brightness_set]
    simp only [if_neg h]
    exact ⟨_, rfl, rfl, Or.inr rfl⟩


/-! ## Events (`src/lib/pydevices/__init__.py`, lines 804-896) -/

/-- Python `str.upper()` for the ASCII identifiers used as event names,
applied character by character. -/
def pyUpper (s : String) : String :=
  String.mk (s.data.map Char.toUpper)

/-- Expression `event_class_name[0].upper() + event_class_name[1:].lower()`
(lines 883-885); Python raises `IndexError` on an empty name, which no
claim exercises. -/
def pyCapWord (s : String) : String :=
  match s.data with
  | [] => ""
  | c :: cs => String.mk (c.toUpper :: cs.map Char.toLower)

/-- One element of the `types` argument of `Events.new`: either a bare name
or a `(name, value)` pair. -/
inductive EvItem
  | nameOnly (s : String)
  | pair (s : String) (v : Nat)
  deriving Repr, DecidableEq

/-- The mutable class-level state of `Events`: the event-type attributes
(name and integer code, in insertion order), the event-class attribute
names, and the `_USER_TYPE_BASE` counter.  The remaining attributes of the
class never change and are modelled by the constant `Events.fixedAttrs`
below. -/
structure EventsState where
  types : List (String × Nat)
  classes : List String
  _USER_TYPE_BASE : Nat
  deriving Repr, DecidableEq

/-- The built-in contents of the `Events` class body (lines 808-840): the
twelve type codes, the seven namedtuple record shapes, and the counter
starting at `0x8000`. -/
def Events.initState : EventsState :=
  { types := [("QUIT", 0x100), ("KEYDOWN", 0x300), ("KEYUP", 0x301),
              ("MOUSEMOTION", 0x400), ("MOUSEBUTTONDOWN", 0x401),
              ("MOUSEBUTTONUP", 0x402), ("MOUSEWHEEL", 0x403),
              ("JOYAXISMOTION", 0x600), ("JOYBALLMOTION", 0x601),
              ("JOYHATMOTION", 0x602), ("JOYBUTTONDOWN", 0x603),
              ("JOYBUTTONUP", 0x604)],
    classes := ["Unknown", "Motion", "Button", "Wheel", "Key", "Quit", "Any"],
    _USER_TYPE_BASE := 0x8000 }

/-- Attribute names of the `Events` class besides the tracked event-type and
event-class attributes: the remaining class-body members
(`_USER_TYPE_BASE`, `filter`, the static method `new`) and the dunder
attributes a class object inherits (the exact inherited set varies by
runtime; listed are the usual names).  Every inherited attribute is a
dunder whose letters are all lowercase, so among all fixed attributes only
`_USER_TYPE_BASE` can collide with an upper-cased type name — notably,
registering the type name `"_user_type_base"` raises AlreadyExists — while
the dunders can collide with a capitalised class name (the capitalisation
keeps a leading underscore and lowercases the rest). -/
def Events.fixedAttrs : List String :=
  ["_USER_TYPE_BASE", "filter", "new",
   "__base__", "__bases__", "__call__", "__class__", "__delattr__",
   "__dict__", "__dir__", "__doc__", "__eq__", "__format__", "__ge__",
   "__getattribute__", "__gt__", "__hash__", "__init__",
   "__init_subclass__", "__le__", "__lt__", "__module__", "__mro__",
   "__name__", "__ne__", "__new__", "__qualname__", "__reduce__",
   "__reduce_ex__", "__repr__", "__setattr__", "__sizeof__", "__str__",
   "__subclasshook__"]

/-- Check `hasattr(Events, name)`: the name is an attribute of the class —
a tracked event-type or event-class attribute, or one of the fixed
attributes of `Events.fixedAttrs`. -/
def Events.hasattr (st : EventsState) (name : String) : Bool :=
  decide (name ∈ st.types.map Prod.fst ∨ name ∈ st.classes ∨ name ∈ Events.fixedAttrs)

/-- The body of one iteration of the types loop of `Events.new`
(lines 867-880): unpack the item into name and optional value; upper-case
the name; if the attribute already exists raise `ValueError`
(AlreadyExists); otherwise assign the given value when it is truthy —
a missing value or the falsy literal `0` assigns the current
`_USER_TYPE_BASE` instead (`value if value else ...`) and increments the
counter (`if not value`). -/
def Events.registerType (st : EventsState) (item : EvItem) :
    EventsState × Option PyErr :=
  let nameVal : String × Option Nat :=
    match item with
    | .pair s v => (s, some v)
    | .nameOnly s => (s, none)
  let type_name := pyUpper nameVal.1
  if Events.hasattr st type_name then
    (st, some .valueError)
  else
    let assigned :=
      match nameVal.2 with
      | some v => if v ≠ 0 then v else st._USER_TYPE_BASE
      | none => st._USER_TYPE_BASE
    let bump : Bool :=
      match nameVal.2 with
      | some v => v == 0
      | none => true
    ({ st with
        types := st.types ++ [(type_name, assigned)],
        _USER_TYPE_BASE :=
          if bump then st._USER_TYPE_BASE + 1 else st._USER_TYPE_BASE },
      none)

/-- The `for type_name in types` loop of `Events.new`: a raised error aborts
the remaining iterations, keeping the attributes already set. -/
def Events.newTypesLoop : EventsState → List EvItem → EventsState × Option PyErr
  | st, [] => (st, none)
  | st, item :: rest =>
    match Events.registerType st item with
    | (st2, none) => Events.newTypesLoop st2 rest
    | (st2, some e) => (st2, some e)

/-- The `for ... in classes.items()` loop of `Events.new` (lines 882-896):
each class name is capitalised (first letter upper, rest lower); an
existing attribute of that name raises `ValueError` (AlreadyExists),
otherwise a namedtuple with the given fields is attached — modelled by
recording the attribute name (no claim consults the field list). -/
def Events.newClassesLoop : EventsState → List (String × String) → EventsState × Option PyErr
  | st, [] => (st, none)
  | st, (cname, _cfields) :: rest =>
    let event_class_name := pyCapWord cname
    if Events.hasattr st event_class_name then
      (st, some .valueError)
    else
      Events.newClassesLoop { st with classes := st.classes ++ [event_class_name] } rest

/-- Source `Events.new(types=[], classes={})` (lines 842-896): the types loop runs
first; if it raises, the classes loop is never reached. -/
def Events.new (st : EventsState) (types : List EvItem) (classes : List (String × String)) :
    EventsState × Option PyErr :=
  match Events.newTypesLoop st types with
  | (st1, some e) => (st1, some e)
  | (st1, none) => Events.newClassesLoop st1 classes

/-- Registering a fresh bare name assigns the counter and increments it. -/
theorem Events.registerType_fresh (st : EventsState) (s : String)
    (h : Events.hasattr st (pyUpper s) = false) :
    Events.registerType st (EvItem.nameOnly s)
      = ({ st with
            types := st.types ++ [(pyUpper s, st._USER_TYPE_BASE)],
            _USER_TYPE_BASE := st._USER_TYPE_BASE + 1 }, none) := by
  simp [Events.registerType, h]

/-- Registering a name whose upper-cased form is already an attribute
raises `ValueError`. -/
theorem Events.registerType_taken (st : EventsState) (s : String)
    (h : Events.hasattr st (pyUpper s) = true) :
    Events.registerType st (EvItem.nameOnly s) = (st, some PyErr.valueError) := by
  simp [Events.registerType, h]

/-- Appending one type entry extends the attribute set by exactly that
name. -/
theorem Events.hasattr_append_type (st : EventsState) (u : String) (v b : Nat)
    (m : String) :
    Events.hasattr { st with types := st.types ++ [(u, v)], _USER_TYPE_BASE := b } m
      = (Events.hasattr st m || m == u) := by
  simp only [Events.hasattr, List.map_append, List.mem_append]
  rcases Decidable.em (m = u) with hmu | hmu <;> simp [hmu, or_comm, or_left_comm]

/-- Looking up a key in an association list skips a prefix whose keys all
differ from it. -/
theorem lookup_append_of_not_mem (k : String) (l1 l2 : List (String × Nat))
    (h : k ∉ l1.map Prod.fst) :
    List.lookup k (l1 ++ l2) = List.lookup k l2 := by
  induction l1 with
  | nil => rfl
  | cons hd tl ih =>
    simp only [List.map_cons, List.mem_cons, not_or] at h
    have hk : (k == hd.1) = false := beq_eq_false_iff_ne.mpr h.1
    simp only [List.cons_append, List.lookup, hk]
    exact ih h.2

/-- Claim C8: registering a type name whose upper-cased form already exists
in the `Events` catalog raises `ValueError` (AlreadyExists); registering
two fresh names with no explicit value assigns the current
`_USER_TYPE_BASE` counter and then its successor — two distinct consecutive
codes — while re-registering the first name in the same way fails with
AlreadyExists; the built-in catalog's counter starts at `0x8000`, so from
the initial state the codes start there. -/
theorem events_new_spec (st : EventsState) (n1 n2 : String)
    (h1 : Events.hasattr st (pyUpper n1) = false)
    (h2 : Events.hasattr st (pyUpper n2) = false)
    (hne : pyUpper n1 ≠ pyUpper n2) :
    (Events.new st [EvItem.nameOnly n1, EvItem.nameOnly n2] []).2 = none
    ∧ List.lookup (pyUpper n1)
        (Events.new st [EvItem.nameOnly n1, EvItem.nameOnly n2] []).1.types
      = some st._USER_TYPE_BASE
    ∧ List.lookup (pyUpper n2)
        (Events.new st [EvItem.nameOnly n1, EvItem.nameOnly n2] []).1.types
      = some (st._USER_TYPE_BASE + 1)
    ∧ st._USER_TYPE_BASE ≠ st._USER_TYPE_BASE + 1
    ∧ (Events.new st [EvItem.nameOnly n1, EvItem.nameOnly n1] []).2 = some PyErr.valueError
    ∧ Events.initState._USER_TYPE_BASE = 0x8000 := by
  have hmem1 : pyUpper n1 ∉ st.types.map Prod.fst := by
    intro hc
    simp [Events.hasattr, hc] at h1
  have hmem2 : pyUpper n2 ∉ st.types.map Prod.fst := by
    intro hc
    simp [Events.hasattr, hc] at h2
  have h1' :
      Events.hasattr
        { st with types := st.types ++ [(pyUpper n1, st._USER_TYPE_BASE)],
                  _USER_TYPE_BASE := st._USER_TYPE_BASE + 1 } (pyUpper n1) = true := by
    rw [Events.hasattr_append_type]
    simp
  have h2' :
      Events.hasattr
        { st with types := st.types ++ [(pyUpper n1, st._USER_TYPE_BASE)],
                  _USER_TYPE_BASE := st._USER_TYPE_BASE + 1 } (pyUpper n2) = false := by
    rw [Events.hasattr_append_type, h2]
    simp [Ne.symm hne]
  have run2 :
      Events.new st [EvItem.nameOnly n1, EvItem.nameOnly n2] []
        = ({ st with
              types := (st.types ++ [(pyUpper n1, st._USER_TYPE_BASE)])
                        ++ [(pyUpper n2, st._USER_TYPE_BASE + 1)],
              _USER_TYPE_BASE := st._USER_TYPE_BASE + 1 + 1 }, none) := by
    simp only [Events.new, Events.newTypesLoop, Events.newClassesLoop,
      Events.registerType_fresh st n1 h1, Events.registerType_fresh _ n2 h2']
  have run11 :
      Events.new st [EvItem.nameOnly n1, EvItem.nameOnly n1] []
        = ({ st with
              types := st.types ++ [(pyUpper n1, st._USER_TYPE_BASE)],
              _USER_TYPE_BASE := st._USER_TYPE_BASE + 1 }, some PyErr.valueError) := by
    simp only [Events.new, Events.newTypesLoop, Events.newClassesLoop,
      Events.registerType_fresh st n1 h1, Events.registerType_taken _ n1 h1']
  refine ⟨by rw [run2], ?_, ?_, by omega, by rw [run11], rfl⟩
  · rw [run2]
    show List.lookup (pyUpper n1)
      ((st.types ++ [(pyUpper n1, st._USER_TYPE_BASE)])
        ++ [(pyUpper n2, st._USER_TYPE_BASE + 1)]) = some st._USER_TYPE_BASE
    rw [List.append_assoc, lookup_append_of_not_mem _ _ _ hmem1]
    simp [List.lookup]
  · rw [run2]
    show List.lookup (pyUpper n2)
      ((st.types ++ [(pyUpper n1, st._USER_TYPE_BASE)])
        ++ [(pyUpper n2, st._USER_TYPE_BASE + 1)]) = some (st._USER_TYPE_BASE + 1)
    rw [List.append_assoc, lookup_append_of_not_mem _ _ _ hmem2]
    have hk : (pyUpper n2 == pyUpper n1) = false := beq_eq_false_iff_ne.mpr (Ne.symm hne)
    simp [List.lookup, hk]

/-- Witness for C8 at concrete inputs: from the built-in catalog, registering
fresh names `"foo"` and `"bar"` (upper-cased to `"FOO"`, `"BAR"`) assigns
`0x8000` and `0x8001`, and re-registering `"foo"` fails. -/
theorem events_new_spec_witness :
    (Events.hasattr Events.initState (pyUpper "foo") = false
      ∧ Events.hasattr Events.initState (pyUpper "bar") = false
      ∧ pyUpper "foo" ≠ pyUpper "bar")
    ∧ ((Events.new Events.initState [EvItem.nameOnly "foo", EvItem.nameOnly "bar"] []).2 = none
      ∧ List.lookup (pyUpper "foo")
          (Events.new Events.initState [EvItem.nameOnly "foo", EvItem.nameOnly "bar"] []).1.types
        = some Events.initState._USER_TYPE_BASE
      ∧ List.lookup (pyUpper "bar")
          (Events.new Events.initState [EvItem.nameOnly "foo", EvItem.nameOnly "bar"] []).1.types
        = some (Events.initState._USER_TYPE_BASE + 1)
      ∧ Events.initState._USER_TYPE_BASE ≠ Events.initState._USER_TYPE_BASE + 1
      ∧ (Events.new Events.initState [EvItem.nameOnly "foo", EvItem.nameOnly "foo"] []).2
        = some PyErr.valueError
      ∧ Events.initState._USER_TYPE_BASE = 0x8000) :=
  ⟨⟨by decide, by decide, by decide⟩,
    events_new_spec Events.initState "foo" "bar" (by decide) (by decide) (by decide)⟩
